import Mathlib

/-!
Shallow embedding of the CAMPS audio-conversion scripts (camps_mt.py and
camps_legacy.py).  External library calls (mutagen, pydub, os, shutil,
requests) are modelled by an explicit per-file environment describing what
each call would do (return a value, return None, or raise), and the
filesystem / notification side effects are recorded as an explicit event
trace.  Python exceptions are modelled with Except: a function that can let
an exception escape returns Except, a function whose body is wrapped in a
catch-all try/except is total.
-/

/-- Result of a call to mutagen.File on a file, abstracted to the tag fields
the scripts touch.  isNone: the call returned None.  emptyObj: it returned a
falsy (tag-less) file object.  value: it returned a truthy object whose
artist/title fields are given (empty string encodes an absent field).
raises: the call raised an exception with the given message. -/
inductive MRead (α : Type) where
  | isNone : MRead α
  | emptyObj : MRead α
  | value : α → MRead α
  | raises : String → MRead α
deriving DecidableEq, Repr

/-- Result of the mutagen.File call made by get_mp3_bitrate, abstracted to
the info.bitrate field (bits per second).  isNone: the call returned None,
so the attribute access audio.info raises AttributeError (caught by
get_mp3_bitrate).  raises: the call itself raised. -/
inductive InfoRead where
  | info : Nat → InfoRead
  | isNone : InfoRead
  | raises : String → InfoRead
deriving DecidableEq, Repr

/-- The two tag fields the scripts read and write.  The empty string encodes
an absent field (Python code tests them with truthiness only). -/
structure TagSet where
  artist : String
  title : String
deriving DecidableEq, Repr

/-- Observable side effects of one task: filesystem mutations and messages
handed to the Slack notification sink. -/
inductive Event where
  | tmpCreate : String → Event
  | exportFile : String → Event
  | tagSave : String → TagSet → Event
  | move : String → String → Event
  | chmod : String → Event
  | chown : String → Event
  | remove : String → Event
  | slack : String → Event
deriving DecidableEq, Repr

/-- Final state of one task, read off from which return statement of the
source the run reached: converted = the success return of convert_to_mp3,
failed = the except-handler return of convert_to_mp3, skipped = the
bitrate-skip return of process_file, unsupported = the extension-mismatch
return. -/
inductive Outcome where
  | converted : Outcome
  | failed : Outcome
  | skipped : Outcome
  | unsupported : Outcome
deriving DecidableEq, Repr

/-- The configuration the scripts read from the environment at startup
(BITRATE, default 256). -/
structure Config where
  desired_bitrate : Nat
deriving DecidableEq, Repr

/-- Per-file environment: the path split into directory, base name and
extension (as os.path.splitext and os.path.basename would), and the outcome
of every external call the pipeline makes on this file.  Each xxxOk flag
tells whether the corresponding library call succeeds or raises. -/
structure FileEnv where
  dir : String
  base : String
  ext : String
  bitrateInfo : InfoRead
  easyTags : MRead TagSet
  easySaveOk : Bool
  audioLoadOk : Bool
  statOk : Bool
  tempOk : Bool
  tempPath : String
  exportOk : Bool
  permStatOk : Bool
  sizesOk : Bool
  originalSize : Nat
  newSize : Nat
  srcTags : MRead TagSet
  artTags : MRead TagSet
  metaSaveOk : Bool
  recoverySaveOk : Bool
  moveOk : Bool
  chmodOk : Bool
  chownOk : Bool
  removeOk : Bool
deriving DecidableEq, Repr

/-- Full path of the input file. -/
def inputPath (env : FileEnv) : String := env.dir ++ "/" ++ env.base ++ env.ext

/-- Path with the extension replaced by .mp3, as computed at line 60 of
camps_mt.py (os.path.splitext(input_path)[0] + ".mp3"). -/
def newPath (env : FileEnv) : String := env.dir ++ "/" ++ env.base ++ ".mp3"

/-- SUPPORTED_EXTENSIONS from the source. -/
def SUPPORTED_EXTENSIONS : List String :=
  [".wav", ".flac", ".ogg", ".aac", ".m4a", ".wma", ".alac", ".aiff", ".mp3"]

/-- Search for the first occurrence of sep in a character list; on a hit,
return the part before it and the part after it (Python split(sep, 1)). -/
def splitOnceAux (sep : List Char) : List Char → Option (List Char × List Char)
  | [] => Option.none
  | c :: rest =>
      if sep.isPrefixOf (c :: rest) then some ([], (c :: rest).drop sep.length)
      else
        match splitOnceAux sep rest with
        | some (pre, post) => some (c :: pre, post)
        | Option.none => Option.none

/-- The filename heuristic of the source: if " - " occurs in name, return
the substring before the first occurrence (the estimated artist) and the
rest (the estimated title); this is name.split(" - ", 1) guarded by the
test of whether " - " occurs in name. -/
def splitArtistTitle (name : String) : Option (String × String) :=
  match splitOnceAux " - ".toList name.toList with
  | some (pre, post) => some (String.mk pre, String.mk post)
  | Option.none => Option.none

/-- str.lower() restricted to ASCII, as Python applies it to extensions;
implemented structurally so that concrete evaluation reduces. -/
def pyLower (s : String) : String := String.mk (s.toList.map Char.toLower)

/-- get_mp3_bitrate, lines 38 to 47 of camps_mt.py: the whole body is in a
try/except, so None is returned whenever the read or the attribute access
fails; on success the bits-per-second value is integer-divided by 1000. -/
def get_mp3_bitrate (r : InfoRead) : Option Nat :=
  match r with
  | InfoRead.info b => some (b / 1000)
  | InfoRead.isNone => Option.none
  | InfoRead.raises _ => Option.none

/-- Python truthiness of the bitrate variable (None and 0 are falsy). -/
def truthy (b : Option Nat) : Bool :=
  match b with
  | Option.none => false
  | some n => n != 0

/-- The skip test at line 151 of camps_mt.py:
bitrate == desired_bitrate or (bitrate and bitrate < desired_bitrate). -/
def mp3_skip (bitrate : Option Nat) (desired : Nat) : Bool :=
  (bitrate == some desired) || (truthy bitrate && decide (bitrate.getD 0 < desired))

/-- dict.update semantics on the two modelled fields: every field present in
src (non-empty) replaces the field of the artifact; absent fields keep the
artifact value. -/
def mergeTags (src art : TagSet) : TagSet :=
  { artist := if src.artist = "" then art.artist else src.artist,
    title := if src.title = "" then art.title else src.title }

/-- The except branch of the metadata block of convert_to_mp3 (camps_mt.py
lines 71 to 94).  bound is the value of the local variable new_metadata at
the time the exception was caught: Option.none means the name was never
assigned (the exception came from one of the two mutagen.File calls), in
which case the recovery code itself raises UnboundLocalError when it tries
to assign new_metadata fields.  An error result propagates to the outer
try/except of convert_to_mp3. -/
def estimateRecovery (env : FileEnv) (bound : Option TagSet) : Except String (List Event) :=
  match splitArtistTitle env.base with
  | some (a, ti) =>
      match bound with
      | Option.none =>
          Except.error "UnboundLocalError: local variable new_metadata referenced before assignment"
      | some tags =>
          if env.recoverySaveOk then
            Except.ok [Event.tagSave env.tempPath { tags with artist := a, title := ti },
                       Event.slack ("Estimated metadata for " ++ inputPath env ++
                                    ": Artist - " ++ a ++ ", Title - " ++ ti)]
          else Except.error "new_metadata.save failed"
  | Option.none =>
      Except.ok [Event.slack ("Could not estimate metadata for " ++ inputPath env ++
                              ". Please check manually.")]

/-- The metadata block of convert_to_mp3 (camps_mt.py lines 65 to 94): read
both tag sets; if either mutagen.File call raises, the handler runs with
new_metadata unbound; if both reads return objects but either is falsy, the
copy is skipped silently; if both are truthy the artifact tags are updated
from the source and saved, a failing save running the handler with
new_metadata bound to the merged tags. -/
def meta_section (env : FileEnv) : Except String (List Event) :=
  match env.srcTags, env.artTags with
  | MRead.raises _, _ => estimateRecovery env Option.none
  | _, MRead.raises _ => estimateRecovery env Option.none
  | MRead.value s, MRead.value t =>
      let merged := mergeTags s t
      if env.metaSaveOk then Except.ok [Event.tagSave env.tempPath merged]
      else estimateRecovery env (some merged)
  | _, _ => Except.ok []

/-- The two scratch-space events at the start of convert_to_mp3: temporary
file creation and the export of the encoded audio into it. -/
def startEvs (env : FileEnv) : List Event :=
  [Event.tmpCreate env.tempPath, Event.exportFile env.tempPath]

/-- Body of the outer try of convert_to_mp3 (camps_mt.py lines 51 to 104).
An error result carries the events that already happened before the
exception; it is caught by the outer handler (see convert_to_mp3). -/
def convert_body (cfg : Config) (env : FileEnv) : Except (String × List Event) (Int × List Event) :=
  if env.audioLoadOk then
    if env.statOk then
      if env.tempOk then
        if env.exportOk then
          if env.permStatOk then
            if env.sizesOk then
              match meta_section env with
              | Except.error e => Except.error (e, startEvs env)
              | Except.ok metaEvs =>
                  let evs1 := startEvs env ++ metaEvs
                  if env.moveOk then
                    let evs2 := evs1 ++ [Event.move env.tempPath (newPath env)]
                    if env.chmodOk then
                      let evs3 := evs2 ++ [Event.chmod (newPath env)]
                      if env.chownOk then
                        let evs4 := evs3 ++ [Event.chown (newPath env)]
                        if inputPath env = newPath env then
                          Except.ok ((env.originalSize : Int) - (env.newSize : Int), evs4)
                        else
                          if env.removeOk then
                            Except.ok ((env.originalSize : Int) - (env.newSize : Int),
                                       evs4 ++ [Event.remove (inputPath env)])
                          else Except.error ("os.remove failed", evs4)
                      else Except.error ("os.chown failed", evs3)
                    else Except.error ("os.chmod failed", evs2)
                  else Except.error ("shutil.move failed", evs1)
            else Except.error ("os.path.getsize failed", startEvs env)
          else Except.error ("os.stat failed", startEvs env)
        else Except.error ("audio.export failed", [Event.tmpCreate env.tempPath])
      else Except.error ("NamedTemporaryFile failed", [])
    else Except.error ("os.stat failed", [])
  else Except.error ("AudioSegment.from_file failed", [])

/-- convert_to_mp3 of camps_mt.py: the outer try/except makes the function
total; on an exception it reports the error to Slack and returns 0, the
Outcome recording which return statement was reached. -/
def convert_to_mp3 (cfg : Config) (env : FileEnv) : Outcome × Int × List Event :=
  match convert_body cfg env with
  | Except.ok (n, evs) => (Outcome.converted, n, evs)
  | Except.error (e, evs) =>
      (Outcome.failed, 0,
       evs ++ [Event.slack ("Error converting " ++ inputPath env ++ " to MP3: " ++ e)])

/-- The filename-estimation core of the mp3 branch of process_file
(camps_mt.py lines 127 to 149), run on the tag fields read from the file:
if artist or title is missing and the name contains " - ", the missing
fields are filled from the filename and the file is saved; with no
separator only a notification is sent.  The save call is not guarded, so
its failure escapes process_file. -/
def estimation_core (env : FileEnv) (t : TagSet) : Except String (List Event) :=
  if t.artist = "" || t.title = "" then
    match splitArtistTitle env.base with
    | some (a, ti) =>
        if env.easySaveOk then
          Except.ok [Event.tagSave (inputPath env)
                       { artist := if t.artist = "" then a else t.artist,
                         title := if t.title = "" then ti else t.title },
                     Event.slack ("Estimated metadata for " ++ inputPath env ++
                                  ": Artist - " ++ a ++ ", Title - " ++ ti)]
        else Except.error "audio_file.save failed"
    | Option.none =>
        Except.ok [Event.slack ("Could not estimate metadata for " ++ inputPath env ++
                                ". Please check manually.")]
  else Except.ok []

/-- Lines 123 to 149 of camps_mt.py.  The call
audio_file = mutagen.File(file_path, easy=True) is not inside any
try/except: if it raises, the exception escapes process_file, and if it
returns None the subsequent audio_file.get call raises AttributeError,
which also escapes.  A falsy tag-less object behaves like empty fields. -/
def estimation_block (env : FileEnv) : Except String (List Event) :=
  match env.easyTags with
  | MRead.raises e => Except.error e
  | MRead.isNone => Except.error "AttributeError: NoneType object has no attribute get"
  | MRead.emptyObj => estimation_core env { artist := "", title := "" }
  | MRead.value t => estimation_core env t

/-- process_file of camps_mt.py (lines 112 to 156).  The result is Except
because the mp3 metadata block can raise (see estimation_block); every
other path returns normally. -/
def process_file (cfg : Config) (env : FileEnv) : Except String (Outcome × Int × List Event) :=
  let ext := pyLower env.ext
  if ext ∈ SUPPORTED_EXTENSIONS then
    if ext = ".mp3" then
      let bitrate := get_mp3_bitrate env.bitrateInfo
      match estimation_block env with
      | Except.error e => Except.error e
      | Except.ok metaEvs =>
          if mp3_skip bitrate cfg.desired_bitrate then
            Except.ok (Outcome.skipped, 0, metaEvs)
          else
            let r := convert_to_mp3 cfg env
            Except.ok (r.1, r.2.1, metaEvs ++ r.2.2)
    else
      let r := convert_to_mp3 cfg env
      Except.ok (r.1, r.2.1, r.2.2)
  else Except.ok (Outcome.unsupported, 0, [])

/-- list(executor.map(process_file, files)) of camps_mt.py line 173:
results are collected in order and the first exception raised by a task
re-raises at collection, aborting the batch. -/
def run_all (cfg : Config) : List FileEnv → Except String (List (Outcome × Int × List Event))
  | [] => Except.ok []
  | f :: rest =>
      match process_file cfg f with
      | Except.error e => Except.error e
      | Except.ok r =>
          match run_all cfg rest with
          | Except.error e => Except.error e
          | Except.ok rs => Except.ok (r :: rs)

/-- One step of the aggregation loop of process_directory (camps_mt.py
lines 175 to 178): a strictly positive space_saved increments the count and
is added to the total, anything else is ignored. -/
def aggStep (acc : Nat × Int) (s : Int) : Nat × Int :=
  if s > 0 then (acc.1 + 1, acc.2 + s) else acc

/-- The whole aggregation loop over the collected per-file results. -/
def aggregate (nums : List Int) : Nat × Int := nums.foldl aggStep (0, 0)

/-- process_directory of camps_mt.py (lines 159 to 188): run every task,
then reduce the returned space_saved values to the summary pair
(converted_count, total_space_saved).  If collecting the results re-raises
a task exception, the function dies without reaching the summary. -/
def process_directory (cfg : Config) (files : List FileEnv) : Except String (Nat × Int) :=
  match run_all cfg files with
  | Except.error e => Except.error e
  | Except.ok results => Except.ok (aggregate (results.map (fun r => r.2.1)))

/-- Behaviour of the requests.post call in the notification senders. -/
inductive HttpResult where
  | status : Nat → HttpResult
  | raises : String → HttpResult
deriving DecidableEq, Repr

/-- The raw HTTP call: raising is an error that the callers must catch. -/
def requests_post (r : HttpResult) : Except String Nat :=
  match r with
  | HttpResult.raises e => Except.error e
  | HttpResult.status c => Except.ok c

/-- send_slack_message of camps_mt.py (lines 201 to 215): the post is inside
a try/except and a non-200 status is only printed, so the function always
returns normally; the returned list is the log lines it prints. -/
def send_slack_message (r : HttpResult) (message : String) : Except String (List String) :=
  match requests_post r with
  | Except.ok code =>
      if code = 200 then Except.ok ["Slack notification sent successfully."]
      else Except.ok ["Failed to send Slack notification. Status code: " ++ toString code]
  | Except.error e => Except.ok ["Error sending Slack notification: " ++ e]

namespace Legacy

/-- The metadata copy of camps_legacy.py (lines 78 to 81): it is not inside
its own try/except, so any failure propagates to the outer handler of
convert_to_mp3.  A None from either mutagen.File call makes the update call
raise (attribute access on None, or dict.update of None). -/
def meta_section (env : FileEnv) : Except String (List Event) :=
  match env.srcTags, env.artTags with
  | MRead.raises e, _ => Except.error e
  | _, MRead.raises e => Except.error e
  | MRead.isNone, _ => Except.error "TypeError: argument of update is None"
  | _, MRead.isNone => Except.error "AttributeError: NoneType object has no attribute update"
  | s, t =>
      let sv := match s with | MRead.value v => v | _ => { artist := "", title := "" }
      let tv := match t with | MRead.value v => v | _ => { artist := "", title := "" }
      if env.metaSaveOk then Except.ok [Event.tagSave env.tempPath (mergeTags sv tv)]
      else Except.error "new_metadata.save failed"

/-- Body of the outer try of convert_to_mp3 in camps_legacy.py (lines 53 to
95); identical to the mt version except for the metadata block. -/
def convert_body (cfg : Config) (env : FileEnv) : Except (String × List Event) (Int × List Event) :=
  if env.audioLoadOk then
    if env.statOk then
      if env.tempOk then
        if env.exportOk then
          if env.permStatOk then
            if env.sizesOk then
              match Legacy.meta_section env with
              | Except.error e => Except.error (e, startEvs env)
              | Except.ok metaEvs =>
                  let evs1 := startEvs env ++ metaEvs
                  if env.moveOk then
                    let evs2 := evs1 ++ [Event.move env.tempPath (newPath env)]
                    if env.chmodOk then
                      let evs3 := evs2 ++ [Event.chmod (newPath env)]
                      if env.chownOk then
                        let evs4 := evs3 ++ [Event.chown (newPath env)]
                        if inputPath env = newPath env then
                          Except.ok ((env.originalSize : Int) - (env.newSize : Int), evs4)
                        else
                          if env.removeOk then
                            Except.ok ((env.originalSize : Int) - (env.newSize : Int),
                                       evs4 ++ [Event.remove (inputPath env)])
                          else Except.error ("os.remove failed", evs4)
                      else Except.error ("os.chown failed", evs3)
                    else Except.error ("os.chmod failed", evs2)
                  else Except.error ("shutil.move failed", evs1)
            else Except.error ("os.path.getsize failed", startEvs env)
          else Except.error ("os.stat failed", startEvs env)
        else Except.error ("audio.export failed", [Event.tmpCreate env.tempPath])
      else Except.error ("NamedTemporaryFile failed", [])
    else Except.error ("os.stat failed", [])
  else Except.error ("AudioSegment.from_file failed", [])

/-- convert_to_mp3 of camps_legacy.py: total thanks to the outer
try/except, which reports the error to Slack inline and returns 0. -/
def convert_to_mp3 (cfg : Config) (env : FileEnv) : Outcome × Int × List Event :=
  match Legacy.convert_body cfg env with
  | Except.ok (n, evs) => (Outcome.converted, n, evs)
  | Except.error (e, evs) =>
      (Outcome.failed, 0,
       evs ++ [Event.slack ("Error converting " ++ inputPath env ++ " to MP3: " ++ e)])

/-- The per-file body of the loop of process_directory in camps_legacy.py
(lines 125 to 143): extension filter, mp3 bitrate skip (two continue
statements), then conversion. -/
def process_file_step (cfg : Config) (env : FileEnv) : Outcome × Int × List Event :=
  let ext := pyLower env.ext
  if ext ∈ SUPPORTED_EXTENSIONS then
    if ext = ".mp3" then
      let bitrate := get_mp3_bitrate env.bitrateInfo
      if bitrate == some cfg.desired_bitrate then (Outcome.skipped, 0, [])
      else if truthy bitrate && decide (bitrate.getD 0 < cfg.desired_bitrate) then
        (Outcome.skipped, 0, [])
      else Legacy.convert_to_mp3 cfg env
    else Legacy.convert_to_mp3 cfg env
  else (Outcome.unsupported, 0, [])

/-- process_directory of camps_legacy.py (lines 114 to 154): sequential
loop, accumulating exactly like aggStep. -/
def process_directory (cfg : Config) (files : List FileEnv) : Nat × Int :=
  aggregate ((files.map (Legacy.process_file_step cfg)).map (fun r => r.2.1))

/-- send_slack_notification of camps_legacy.py (lines 157 to 174): same
try/except shape as the mt sender; the message argument stands for the
formatted summary text. -/
def send_slack_notification (r : HttpResult) (message : String) : Except String (List String) :=
  match requests_post r with
  | Except.ok code =>
      if code = 200 then Except.ok ["Slack notification sent successfully."]
      else Except.ok ["Failed to send Slack notification. Status code: " ++ toString code]
  | Except.error e => Except.ok ["Error sending Slack notification: " ++ e]

end Legacy

/-- The outcome of a task result, when it returned normally. -/
def outcomeOf (r : Except String (Outcome × Int × List Event)) : Option Outcome :=
  match r with
  | Except.ok x => some x.1
  | Except.error _ => Option.none

/-- The event trace of a task result, when it returned normally. -/
def eventsOf (r : Except String (Outcome × Int × List Event)) : Option (List Event) :=
  match r with
  | Except.ok x => some x.2.2
  | Except.error _ => Option.none

/-- Does the event mutate the filesystem (as opposed to notifying)? -/
def isFsWrite (e : Event) : Bool :=
  match e with
  | Event.slack _ => false
  | _ => true

/-- The default configuration (BITRATE defaults to 256). -/
def cfg256 : Config := { desired_bitrate := 256 }

/-- A well-behaved .wav file: every external call succeeds, conversion
shrinks it from 1000 to 400 bytes. -/
def envGood : FileEnv := {
  dir := "/music", base := "good", ext := ".wav",
  bitrateInfo := InfoRead.isNone,
  easyTags := MRead.value { artist := "A", title := "B" },
  easySaveOk := true, audioLoadOk := true, statOk := true, tempOk := true,
  tempPath := "/tmp/scratch1.mp3", exportOk := true, permStatOk := true, sizesOk := true,
  originalSize := 1000, newSize := 400,
  srcTags := MRead.value { artist := "A", title := "B" },
  artTags := MRead.value { artist := "", title := "" },
  metaSaveOk := true, recoverySaveOk := true,
  moveOk := true, chmodOk := true, chownOk := true, removeOk := true }

/-- An .mp3 file on which mutagen.File(path, easy=True) returns None. -/
def env1none : FileEnv := { envGood with ext := ".mp3", easyTags := MRead.isNone }

/-- An .mp3 file on which mutagen.File(path, easy=True) raises. -/
def env1raises : FileEnv :=
  { envGood with ext := ".mp3", easyTags := MRead.raises "mutagen easy read failed" }

/-- A file whose converted artifact is larger than the original. -/
def env150 : FileEnv := { envGood with originalSize := 100, newSize := 150 }

/-- A convertible file whose converted artifact has exactly the original size. -/
def envEq : FileEnv := { envGood with newSize := 1000 }

/-- A file with an unsupported extension. -/
def envTxt : FileEnv := { envGood with ext := ".txt" }

/-- A .wav file named with the separator convention whose embedded tags are
unreadable: the first mutagen.File call of the metadata block raises. -/
def env7 : FileEnv :=
  { envGood with
    base := "Artist - Title"
    srcTags := MRead.raises "mutagen read error" }

/-- An .mp3 file exactly at the target bitrate whose artist tag is empty and
whose name contains the separator. -/
def env4 : FileEnv :=
  { envGood with
    ext := ".mp3"
    bitrateInfo := InfoRead.info 256000
    easyTags := MRead.value { artist := "", title := "Some Title" }
    base := "Artist - Song" }

/-- An .mp3 file exactly at the target bitrate with complete tags. -/
def envMp3AtTarget : FileEnv :=
  { envGood with ext := ".mp3", bitrateInfo := InfoRead.info 256000 }

/-- An .mp3 file whose bitrate reads as 0 kbps (999 bits per second). -/
def env5 : FileEnv := { envGood with ext := ".mp3", bitrateInfo := InfoRead.info 999 }

/-- A file whose artifact already carries non-empty tags, whose tag copy
save fails, and whose name carries the separator convention. -/
def env6 : FileEnv :=
  { envGood with
    srcTags := MRead.value { artist := "", title := "" }
    artTags := MRead.value { artist := "Keep", title := "Old" }
    metaSaveOk := false
    base := "New - Song" }

/-- A file satisfying every hypothesis of the amended C6 statement. -/
def env6w : FileEnv :=
  { envGood with
    base := "New - Song"
    easyTags := MRead.value { artist := "", title := "T" }
    metaSaveOk := false }

lemma aggStep_pos {c : Nat} {t : Int} {s : Int} (h : 0 < s) :
    aggStep (c, t) s = (c + 1, t + s) := by
  simp [aggStep, h]

lemma aggStep_nonpos {c : Nat} {t : Int} {s : Int} (h : ¬ 0 < s) :
    aggStep (c, t) s = (c, t) := by
  simp [aggStep, h]

lemma foldl_aggStep (nums : List Int) : ∀ (c : Nat) (t : Int),
    nums.foldl aggStep (c, t) =
      (c + (nums.filter (fun s => decide (0 < s))).length,
       t + (nums.filter (fun s => decide (0 < s))).sum) := by
  induction nums with
  | nil => intro c t; simp
  | cons s rest ih =>
      intro c t
      by_cases h : 0 < s
      · rw [List.foldl_cons, aggStep_pos h, ih]
        simp [h]
        constructor
        · omega
        · ring
      · rw [List.foldl_cons, aggStep_nonpos h, ih]
        simp [h]

lemma aggregate_spec (nums : List Int) :
    aggregate nums = ((nums.filter (fun s => decide (0 < s))).length,
                      (nums.filter (fun s => decide (0 < s))).sum) := by
  unfold aggregate
  rw [foldl_aggStep]
  simp

lemma convert_to_mp3_cases (cfg : Config) (env : FileEnv) :
    (convert_to_mp3 cfg env).1 = Outcome.converted ∨
    ((convert_to_mp3 cfg env).1 = Outcome.failed ∧ (convert_to_mp3 cfg env).2.1 = 0) := by
  unfold convert_to_mp3
  cases h : convert_body cfg env with
  | ok v => left; rfl
  | error e => right; exact ⟨rfl, rfl⟩

lemma process_file_pos_converted (cfg : Config) (env : FileEnv)
    (r : Outcome × Int × List Event) (h : process_file cfg env = Except.ok r)
    (hpos : r.2.1 ≠ 0) : r.1 = Outcome.converted := by
  by_cases hmem : pyLower env.ext ∈ SUPPORTED_EXTENSIONS
  · have hm3 : (".mp3" : String) ∈ SUPPORTED_EXTENSIONS := by decide
    by_cases hmp3 : pyLower env.ext = ".mp3"
    · cases heb : estimation_block env with
      | error e => simp [process_file, hmem, hmp3, hm3, heb] at h
      | ok metaEvs =>
          by_cases hskip : mp3_skip (get_mp3_bitrate env.bitrateInfo) cfg.desired_bitrate = true
          · simp [process_file, hmem, hmp3, hm3, heb, hskip] at h
            subst h
            simp at hpos
          · simp [process_file, hmem, hmp3, hm3, heb, hskip] at h
            subst h
            rcases convert_to_mp3_cases cfg env with hc | ⟨hf, hz⟩
            · exact hc
            · simp [hz] at hpos
    · simp [process_file, hmem, hmp3] at h
      subst h
      rcases convert_to_mp3_cases cfg env with hc | ⟨hf, hz⟩
      · exact hc
      · simp [hz] at hpos
  · simp [process_file, hmem] at h
    subst h
    simp at hpos

lemma run_all_mem (cfg : Config) :
    ∀ (files : List FileEnv) (results : List (Outcome × Int × List Event)),
      run_all cfg files = Except.ok results →
      ∀ r ∈ results, ∃ env ∈ files, process_file cfg env = Except.ok r := by
  intro files
  induction files with
  | nil =>
      intro results h r hr
      unfold run_all at h
      cases h
      cases hr
  | cons f rest ih =>
      intro results h r hr
      unfold run_all at h
      cases hf : process_file cfg f with
      | error e => rw [hf] at h; cases h
      | ok v =>
          rw [hf] at h
          cases hrest : run_all cfg rest with
          | error e => rw [hrest] at h; cases h
          | ok vs =>
              rw [hrest] at h
              cases h
              rcases List.mem_cons.mp hr with rfl | hmem
              · exact ⟨f, List.mem_cons_self f rest, hf⟩
              · rcases ih vs hrest r hmem with ⟨env, henv, hpf⟩
                exact ⟨env, List.mem_cons_of_mem f henv, hpf⟩

/-- Where copies of the audio content live: the original content at the
input path, and the converted content in the scratch artifact and at the
destination path. -/
structure AudioState where
  srcOrig : Bool
  tempConv : Bool
  newConv : Bool
deriving DecidableEq, Repr

/-- At least one copy of the audio content exists somewhere. -/
def hasAudio (s : AudioState) : Bool := s.srcOrig || s.tempConv || s.newConv

/-- Effect of one event on the copies of the audio content, for a task with
the given input, destination and scratch paths.  Exporting to the input
path would overwrite the original; moving the artifact consumes the scratch
copy, creates the destination copy and overwrites the input file if the
destination path equals it; removal clears whichever location it hits. -/
def audioStep (input new temp : String) (s : AudioState) (e : Event) : AudioState :=
  match e with
  | Event.exportFile p =>
      { s with tempConv := s.tempConv || p == temp,
               srcOrig := s.srcOrig && !(p == input) }
  | Event.move p q =>
      let moving := p == temp && s.tempConv
      { srcOrig := s.srcOrig && !(moving && q == input),
        tempConv := s.tempConv && !(p == temp),
        newConv := s.newConv || (moving && q == new) }
  | Event.remove p =>
      { srcOrig := s.srcOrig && !(p == input),
        tempConv := s.tempConv && !(p == temp),
        newConv := s.newConv && !(p == new) }
  | _ => s

/-- Before the task starts only the original exists. -/
def initialAudio : AudioState := { srcOrig := true, tempConv := false, newConv := false }

/-- After every prefix of the trace, at least one copy of the audio content
still exists. -/
def safeTrace (input new temp : String) (s : AudioState) (l : List Event) : Prop :=
  ∀ k, hasAudio (List.foldl (audioStep input new temp) s (l.take k)) = true

/-- Events that touch no copy of the audio content. -/
def audioNeutral (e : Event) : Bool :=
  match e with
  | Event.exportFile _ => false
  | Event.move _ _ => false
  | Event.remove _ => false
  | _ => true

lemma audioStep_neutral (input new temp : String) (s : AudioState) (e : Event)
    (h : audioNeutral e = true) : audioStep input new temp s e = s := by
  cases e <;> simp_all [audioNeutral, audioStep]

lemma foldl_neutral (input new temp : String) :
    ∀ (l : List Event), (∀ e ∈ l, audioNeutral e = true) →
      ∀ s, List.foldl (audioStep input new temp) s l = s := by
  intro l
  induction l with
  | nil => intro _ s; rfl
  | cons e rest ih =>
      intro h s
      rw [List.foldl_cons, audioStep_neutral input new temp s e (h e (List.mem_cons_self e rest)),
          ih (fun x hx => h x (List.mem_cons_of_mem e hx)) s]

lemma safeTrace_nil (input new temp : String) (s : AudioState) (h : hasAudio s = true) :
    safeTrace input new temp s [] := by
  intro k
  simpa using h

lemma safeTrace_cons (input new temp : String) (s : AudioState) (e : Event) (l : List Event)
    (h : hasAudio s = true) (h2 : safeTrace input new temp (audioStep input new temp s e) l) :
    safeTrace input new temp s (e :: l) := by
  intro k
  cases k with
  | zero => simpa using h
  | succ k => simpa using h2 k

lemma safeTrace_append_neutral (input new temp : String) (s : AudioState)
    (l1 l2 : List Event) (h1 : ∀ e ∈ l1, audioNeutral e = true)
    (h2 : safeTrace input new temp s l2) : safeTrace input new temp s (l1 ++ l2) := by
  intro k
  rw [List.take_append_eq_append_take, List.foldl_append,
      foldl_neutral input new temp _ (fun e he => h1 e (List.take_subset _ _ he)) s]
  exact h2 _

lemma estimateRecovery_neutral (env : FileEnv) (bound : Option TagSet) (evs : List Event)
    (h : estimateRecovery env bound = Except.ok evs) :
    ∀ e ∈ evs, audioNeutral e = true := by
  rcases hs : splitArtistTitle env.base with _ | ⟨a, ti⟩
  · simp [estimateRecovery, hs] at h
    subst h
    intro e he
    simp at he
    subst he
    rfl
  · cases bound with
    | none => simp [estimateRecovery, hs] at h
    | some tags =>
        by_cases hr : env.recoverySaveOk = true
        · simp [estimateRecovery, hs, hr] at h
          subst h
          intro e he
          rcases List.mem_cons.mp he with rfl | he2
          · rfl
          · simp at he2
            subst he2
            rfl
        · simp [estimateRecovery, hs, hr] at h

lemma meta_section_neutral (env : FileEnv) (evs : List Event)
    (h : meta_section env = Except.ok evs) : ∀ e ∈ evs, audioNeutral e = true := by
  unfold meta_section at h
  cases hs : env.srcTags <;> cases ha : env.artTags <;> simp only [hs, ha] at h <;>
    first
      | exact estimateRecovery_neutral env _ evs h
      | (simp at h; subst h; intro e he; cases he)
      | skip
  all_goals
    by_cases hm : env.metaSaveOk = true
    · simp [hm] at h
      subst h
      intro e he
      simp at he
      subst he
      rfl
    · simp only [hm, if_false, Bool.false_eq_true] at h
      exact estimateRecovery_neutral env _ evs h

lemma convert_body_ok (cfg : Config) (env : FileEnv) (metaEvs : List Event)
    (h1 : env.audioLoadOk = true) (h2 : env.statOk = true) (h3 : env.tempOk = true)
    (h4 : env.exportOk = true) (h5 : env.permStatOk = true) (h6 : env.sizesOk = true)
    (hm : meta_section env = Except.ok metaEvs)
    (h7 : env.moveOk = true) (h8 : env.chmodOk = true) (h9 : env.chownOk = true)
    (h10 : env.removeOk = true) :
    convert_body cfg env = Except.ok ((env.originalSize : Int) - (env.newSize : Int),
      startEvs env ++ metaEvs ++
        ([Event.move env.tempPath (newPath env), Event.chmod (newPath env),
          Event.chown (newPath env)] ++
         (if inputPath env = newPath env then [] else [Event.remove (inputPath env)]))) := by
  by_cases hpn : inputPath env = newPath env <;>
    simp [convert_body, h1, h2, h3, h4, h5, h6, hm, h7, h8, h9, h10, hpn, startEvs,
          List.append_assoc]

lemma convert_to_mp3_ok (cfg : Config) (env : FileEnv) (metaEvs : List Event)
    (h1 : env.audioLoadOk = true) (h2 : env.statOk = true) (h3 : env.tempOk = true)
    (h4 : env.exportOk = true) (h5 : env.permStatOk = true) (h6 : env.sizesOk = true)
    (hm : meta_section env = Except.ok metaEvs)
    (h7 : env.moveOk = true) (h8 : env.chmodOk = true) (h9 : env.chownOk = true)
    (h10 : env.removeOk = true) :
    convert_to_mp3 cfg env =
      (Outcome.converted, (env.originalSize : Int) - (env.newSize : Int),
       startEvs env ++ metaEvs ++
         ([Event.move env.tempPath (newPath env), Event.chmod (newPath env),
           Event.chown (newPath env)] ++
          (if inputPath env = newPath env then [] else [Event.remove (inputPath env)]))) := by
  rw [convert_to_mp3, convert_body_ok cfg env metaEvs h1 h2 h3 h4 h5 h6 hm h7 h8 h9 h10]

lemma safeTrace_commitTail (input new temp : String) (hti : temp ≠ input) (htn : temp ≠ new)
    (s : AudioState) (hs : s.tempConv = true) :
    safeTrace input new temp s
      ([Event.move temp new, Event.chmod new, Event.chown new] ++
       (if input = new then [] else [Event.remove input])) := by
  have hA : hasAudio s = true := by simp [hasAudio, hs]
  have hmove : hasAudio (audioStep input new temp s (Event.move temp new)) = true := by
    simp [audioStep, hasAudio, hs]
  by_cases hpn : input = new
  · rw [if_pos hpn, List.append_nil]
    refine safeTrace_cons _ _ _ _ _ _ hA ?_
    refine safeTrace_cons _ _ _ _ _ _ hmove ?_
    rw [audioStep_neutral input new temp _ (Event.chmod new) rfl]
    refine safeTrace_cons _ _ _ _ _ _ hmove ?_
    rw [audioStep_neutral input new temp _ (Event.chown new) rfl]
    exact safeTrace_nil _ _ _ _ hmove
  · rw [if_neg hpn]
    have hne : (input == new) = false := beq_eq_false_iff_ne.mpr hpn
    have hrem : hasAudio (audioStep input new temp
        (audioStep input new temp s (Event.move temp new)) (Event.remove input)) = true := by
      simp [audioStep, hasAudio, hs, hne]
    refine safeTrace_cons _ _ _ _ _ _ hA ?_
    refine safeTrace_cons _ _ _ _ _ _ hmove ?_
    rw [audioStep_neutral input new temp _ (Event.chmod new) rfl]
    refine safeTrace_cons _ _ _ _ _ _ hmove ?_
    rw [audioStep_neutral input new temp _ (Event.chown new) rfl]
    refine safeTrace_cons _ _ _ _ _ _ hmove ?_
    exact safeTrace_nil _ _ _ _ hrem

/-- The commit-step invariants of one successful conversion: the exact event
trace (scratch work, then best-effort metadata events, then move, chmod,
chown, and the source removal only when the paths differ), the removal
occurring exactly when the destination differs from the source, and the
existence of at least one copy of the audio content after every prefix of
the trace. -/
def commitInvariants (cfg : Config) (env : FileEnv) (metaEvs : List Event) : Prop :=
  convert_to_mp3 cfg env =
    (Outcome.converted, (env.originalSize : Int) - (env.newSize : Int),
     startEvs env ++ metaEvs ++
       ([Event.move env.tempPath (newPath env), Event.chmod (newPath env),
         Event.chown (newPath env)] ++
        (if inputPath env = newPath env then [] else [Event.remove (inputPath env)]))) ∧
  (∀ e ∈ metaEvs, audioNeutral e = true) ∧
  (Event.remove (inputPath env) ∈ (convert_to_mp3 cfg env).2.2 ↔ inputPath env ≠ newPath env) ∧
  safeTrace (inputPath env) (newPath env) env.tempPath initialAudio (convert_to_mp3 cfg env).2.2

lemma estimation_core_isOk (env : FileEnv) (t : TagSet) (hsave : env.easySaveOk = true) :
    ∃ evs, estimation_core env t = Except.ok evs := by
  by_cases hc : (t.artist = "" || t.title = "") = true
  · rcases hs : splitArtistTitle env.base with _ | ⟨a, ti⟩ <;>
      simp [estimation_core, hs, hc, hsave]
  · simp [estimation_core, hc]

lemma estimation_core_no_write (env : FileEnv) (t : TagSet)
    (hclean : (t.artist ≠ "" ∧ t.title ≠ "") ∨ splitArtistTitle env.base = Option.none) :
    ∃ evs, estimation_core env t = Except.ok evs ∧ ∀ e ∈ evs, isFsWrite e = false := by
  rcases hclean with ⟨ha, hti⟩ | hsep
  · refine ⟨[], by simp [estimation_core, ha, hti], by simp⟩
  · by_cases hc : (t.artist = "" || t.title = "") = true
    · refine ⟨[Event.slack ("Could not estimate metadata for " ++ inputPath env ++
                            ". Please check manually.")], ?_, ?_⟩
      · simp [estimation_core, hc, hsep]
      · intro e he
        simp at he
        subst he
        rfl
    · refine ⟨[], by simp [estimation_core, hc], by simp⟩

lemma estimation_block_value (env : FileEnv) (t : TagSet)
    (htags : env.easyTags = MRead.value t) :
    estimation_block env = estimation_core env t := by
  simp [estimation_block, htags]

lemma mp3_skip_iff (bitrate : Option Nat) (d : Nat) :
    mp3_skip bitrate d = true ↔
      (bitrate = some d ∨ ∃ b, bitrate = some b ∧ 0 < b ∧ b < d) := by
  cases bitrate with
  | none => simp [mp3_skip, truthy]
  | some b =>
      simp only [mp3_skip, truthy, Option.getD_some, Bool.or_eq_true, beq_iff_eq,
                 Option.some.injEq, Bool.and_eq_true, bne_iff_ne, ne_eq, decide_eq_true_eq]
      constructor
      · rintro (rfl | ⟨hnz, hlt⟩)
        · exact Or.inl rfl
        · exact Or.inr ⟨b, rfl, Nat.pos_of_ne_zero hnz, hlt⟩
      · rintro (rfl | ⟨b2, hb2, hpos, hlt⟩)
        · exact Or.inl rfl
        · cases hb2
          exact Or.inr ⟨Nat.pos_iff_ne_zero.mp hpos, hlt⟩

/-- Claim C1 (code bug in camps_mt.py): process_file is claimed to return an
outcome rather than raise for every file, including .mp3 files whose
mutagen.File read fails or returns None.  In fact the easy tag read at line
123 is unguarded: when it returns None the subsequent .get raises
AttributeError, when it raises the exception escapes, and either exception
re-raises out of executor.map, so process_directory dies before printing
the summary; a well-behaved file in the same batch is processed but its
outcome is lost. -/
theorem c1_unreadable_mp3_aborts_batch :
    process_file cfg256 env1none =
      Except.error "AttributeError: NoneType object has no attribute get" ∧
    process_file cfg256 env1raises = Except.error "mutagen easy read failed" ∧
    process_directory cfg256 [envGood, env1none] =
      Except.error "AttributeError: NoneType object has no attribute get" ∧
    process_directory cfg256 [envGood] = Except.ok (1, 600) := by
  refine ⟨rfl, rfl, rfl, rfl⟩

/-- Claim C2 (amended): for every batch whose tasks all return normally,
converted_count equals the number of tasks whose returned space_saved value
is strictly positive and total_space_saved is the sum of exactly those
values; every such counted task did end in Converted.  (The original claim
fails because a task that converted with a zero or negative size delta is a
Converted outcome yet is not counted, see the counterexample.) -/
theorem c2_batch_aggregation_amended (cfg : Config) (files : List FileEnv)
    (results : List (Outcome × Int × List Event))
    (h : run_all cfg files = Except.ok results) :
    process_directory cfg files = Except.ok
      (((results.map (fun r => r.2.1)).filter (fun s => decide (0 < s))).length,
       ((results.map (fun r => r.2.1)).filter (fun s => decide (0 < s))).sum) ∧
    ∀ r ∈ results, 0 < r.2.1 → r.1 = Outcome.converted := by
  refine ⟨?_, ?_⟩
  · simp [process_directory, h, aggregate_spec]
  · intro r hr hpos
    rcases run_all_mem cfg files results h r hr with ⟨env, _, hpf⟩
    exact process_file_pos_converted cfg env r hpf (by omega)

/-- Claim C2 counterexample: a file that is transcoded and committed with
new size equal to the original size ends in outcome Converted (one
Converted task in the batch), yet the summary reports converted_count 0,
because the aggregation counts only strictly positive space_saved values. -/
theorem c2_counterexample :
    (run_all cfg256 [envEq]).map
        (fun rs => (rs.filter (fun r => r.1 == Outcome.converted)).length) = Except.ok 1 ∧
    process_directory cfg256 [envEq] = Except.ok (0, 0) ∧
    (1 : Nat) ≠ 0 := by
  refine ⟨rfl, rfl, by decide⟩

/-- Witness for the amended C2 statement at a concrete one-file batch. -/
theorem c2_amended_witness :
    run_all cfg256 [envTxt] = Except.ok [(Outcome.unsupported, 0, [])] ∧
    process_directory cfg256 [envTxt] = Except.ok
      ((([((Outcome.unsupported : Outcome), (0 : Int), ([] : List Event))].map
           (fun r => r.2.1)).filter (fun s => decide (0 < s))).length,
       (([((Outcome.unsupported : Outcome), (0 : Int), ([] : List Event))].map
           (fun r => r.2.1)).filter (fun s => decide (0 < s))).sum) :=
  ⟨rfl, (c2_batch_aggregation_amended cfg256 [envTxt] _ rfl).1⟩

/-- Claim C3 (amended): for every file whose conversion succeeds the per-file
value is originalSize minus newSize with no clamping (it can be zero or
negative); a non-positive value contributes nothing to the aggregate
because the aggregation step ignores it, so the aggregate never receives a
negative contribution.  (The original claim that the per-file value equals
max(0, originalSize - newSize) fails, see the counterexample.) -/
theorem c3_bytes_saved_amended (cfg : Config) (env : FileEnv) (metaEvs : List Event)
    (h1 : env.audioLoadOk = true) (h2 : env.statOk = true) (h3 : env.tempOk = true)
    (h4 : env.exportOk = true) (h5 : env.permStatOk = true) (h6 : env.sizesOk = true)
    (hm : meta_section env = Except.ok metaEvs)
    (h7 : env.moveOk = true) (h8 : env.chmodOk = true) (h9 : env.chownOk = true)
    (h10 : env.removeOk = true) :
    (convert_to_mp3 cfg env).1 = Outcome.converted ∧
    (convert_to_mp3 cfg env).2.1 = (env.originalSize : Int) - (env.newSize : Int) ∧
    (∀ (c : Nat) (t s : Int), s ≤ 0 → aggStep (c, t) s = (c, t)) := by
  have hc := convert_to_mp3_ok cfg env metaEvs h1 h2 h3 h4 h5 h6 hm h7 h8 h9 h10
  refine ⟨by rw [hc], by rw [hc], ?_⟩
  intro c t s hs
  have hng : ¬ (s > 0) := by omega
  simp [aggStep, hng]

/-- Claim C3 counterexample: a successful conversion of a 100-byte file to a
150-byte file returns -50, which is negative and differs from
max(0, originalSize - newSize) = 0: the code does not clamp. -/
theorem c3_counterexample :
    (convert_to_mp3 cfg256 env150).1 = Outcome.converted ∧
    (convert_to_mp3 cfg256 env150).2.1 = -50 ∧
    (convert_to_mp3 cfg256 env150).2.1 < 0 ∧
    (convert_to_mp3 cfg256 env150).2.1 ≠
      max 0 ((env150.originalSize : Int) - (env150.newSize : Int)) := by
  refine ⟨rfl, rfl, by decide, by decide⟩

/-- Witness for the amended C3 statement at a concrete environment. -/
theorem c3_amended_witness :
    meta_section env150 =
      Except.ok [Event.tagSave env150.tempPath { artist := "A", title := "B" }] ∧
    (convert_to_mp3 cfg256 env150).2.1 =
      (env150.originalSize : Int) - (env150.newSize : Int) :=
  ⟨rfl, (c3_bytes_saved_amended cfg256 env150 _ rfl rfl rfl rfl rfl rfl rfl rfl rfl rfl
          rfl).2.1⟩

/-- Claim C7 (code bug in camps_mt.py): the metadata-copying step is
supposed never to fail the task.  But when the tag read of the source
raises, the local variable new_metadata is never assigned, and the recovery
branch of the exception handler (taken whenever the filename contains the
separator) then raises UnboundLocalError, which the outer handler turns
into a failed task: the artifact is never committed (no move event) and the
task returns 0 instead of ending in Converted. -/
theorem c7_metadata_failure_fails_task :
    env7.srcTags = MRead.raises "mutagen read error" ∧
    env7.audioLoadOk = true ∧ env7.exportOk = true ∧ env7.moveOk = true ∧
    splitArtistTitle env7.base = some ("Artist", "Title") ∧
    (convert_to_mp3 cfg256 env7).1 = Outcome.failed ∧
    (convert_to_mp3 cfg256 env7).2.1 = 0 ∧
    Event.move env7.tempPath (newPath env7) ∉ (convert_to_mp3 cfg256 env7).2.2 := by
  refine ⟨rfl, rfl, rfl, rfl, rfl, rfl, rfl, by decide⟩

/-- Claim C9: every notification send returns normally whatever the
transport does: a raised exception is caught and logged, a non-success
status is only logged, in both the mt sender and the legacy sender. -/
theorem c9_notification_failure_never_propagates :
    ∀ (r : HttpResult) (msg : String),
      (send_slack_message r msg).isOk = true ∧
      (Legacy.send_slack_notification r msg).isOk = true := by
  intro r msg
  cases r with
  | status c =>
      by_cases h : c = 200 <;>
        simp [send_slack_message, Legacy.send_slack_notification, requests_post, h,
              Except.isOk, Except.toBool]
  | raises e =>
      simp [send_slack_message, Legacy.send_slack_notification, requests_post,
            Except.isOk, Except.toBool]

/-- Claim C10: a file whose lowercased extension is not in the supported
set yields outcome 0 with an empty event trace (no filesystem mutation, no
notification) in both scripts, and a 0 result leaves any aggregation
accumulator unchanged. -/
theorem c10_unsupported_extension_untouched :
    ∀ (cfg : Config) (env : FileEnv),
      pyLower env.ext ∉ SUPPORTED_EXTENSIONS →
      process_file cfg env = Except.ok (Outcome.unsupported, 0, []) ∧
      Legacy.process_file_step cfg env = (Outcome.unsupported, 0, []) ∧
      (∀ (c : Nat) (t : Int), aggStep (c, t) 0 = (c, t)) := by
  intro cfg env h
  refine ⟨?_, ?_, ?_⟩
  · simp [process_file, h]
  · simp [Legacy.process_file_step, h]
  · intro c t
    simp [aggStep]

/-- Witness for C10 at a concrete .txt file. -/
theorem c10_witness :
    pyLower envTxt.ext ∉ SUPPORTED_EXTENSIONS ∧
    process_file cfg256 envTxt = Except.ok (Outcome.unsupported, 0, []) :=
  ⟨by decide, (c10_unsupported_extension_untouched cfg256 envTxt (by decide)).1⟩

/-- Claim C4 (amended): an .mp3 file read at exactly the target bitrate is
never transcoded (outcome skipped, value 0, in both scripts), but in
camps_mt.py the skip path is write-free only when artist and title are both
non-empty or the filename lacks the separator: otherwise the metadata
estimation block saves tags into the file before the skip decision (see the
counterexample).  The legacy skip path performs no write at all. -/
theorem c4_idempotent_skip_amended (cfg : Config) (env : FileEnv) (t : TagSet)
    (hext : pyLower env.ext = ".mp3")
    (htags : env.easyTags = MRead.value t)
    (hbit : get_mp3_bitrate env.bitrateInfo = some cfg.desired_bitrate)
    (hclean : (t.artist ≠ "" ∧ t.title ≠ "") ∨ splitArtistTitle env.base = Option.none) :
    (∃ evs, process_file cfg env = Except.ok (Outcome.skipped, 0, evs) ∧
       ∀ e ∈ evs, isFsWrite e = false) ∧
    Legacy.process_file_step cfg env = (Outcome.skipped, 0, []) := by
  obtain ⟨evs, hev, hw⟩ := estimation_core_no_write env t hclean
  have heb : estimation_block env = Except.ok evs := by
    rw [estimation_block_value env t htags, hev]
  have hm3 : (".mp3" : String) ∈ SUPPORTED_EXTENSIONS := by decide
  have hskip : mp3_skip (get_mp3_bitrate env.bitrateInfo) cfg.desired_bitrate = true := by
    simp [mp3_skip, hbit]
  refine ⟨⟨evs, ?_, hw⟩, ?_⟩
  · simp [process_file, hext, hm3, heb, hskip]
  · simp [Legacy.process_file_step, hext, hm3, hbit]

/-- Claim C4 counterexample: an .mp3 exactly at the target bitrate with an
empty artist tag and a separator filename is skipped, yet the skip path has
already written tags into the file (a filesystem write), so the file is not
left byte-for-byte identical. -/
theorem c4_counterexample :
    get_mp3_bitrate env4.bitrateInfo = some cfg256.desired_bitrate ∧
    outcomeOf (process_file cfg256 env4) = some Outcome.skipped ∧
    eventsOf (process_file cfg256 env4) = some
      [Event.tagSave (inputPath env4) { artist := "Artist", title := "Some Title" },
       Event.slack ("Estimated metadata for " ++ inputPath env4 ++
                    ": Artist - Artist, Title - Song")] ∧
    isFsWrite (Event.tagSave (inputPath env4) { artist := "Artist", title := "Some Title" })
      = true := by
  refine ⟨rfl, rfl, rfl, rfl⟩

/-- Witness for the amended C4 statement at a concrete fully-tagged .mp3
file at the target bitrate. -/
theorem c4_amended_witness :
    get_mp3_bitrate envMp3AtTarget.bitrateInfo = some cfg256.desired_bitrate ∧
    (∃ evs, process_file cfg256 envMp3AtTarget = Except.ok (Outcome.skipped, 0, evs) ∧
       ∀ e ∈ evs, isFsWrite e = false) :=
  ⟨rfl, (c4_idempotent_skip_amended cfg256 envMp3AtTarget { artist := "A", title := "B" }
          rfl rfl rfl (Or.inl ⟨by decide, by decide⟩)).1⟩

/-- Claim C5 (amended): for an .mp3 file whose easy tag read returns a
usable object (see the C1 bug for the other cases) and whose tag save does
not fail, process_file never raises, and it skips exactly when the read
bitrate equals the target or is strictly between zero and the target: a
failed bitrate read converts, and so does a read bitrate of exactly 0,
because 0 is falsy in the Python test (bitrate and bitrate < desired), in
divergence from the never-upsample wording (see the counterexample). -/
theorem c5_eligibility_amended (cfg : Config) (env : FileEnv) (t : TagSet)
    (hext : pyLower env.ext = ".mp3")
    (htags : env.easyTags = MRead.value t)
    (hsave : env.easySaveOk = true) :
    outcomeOf (process_file cfg env) ≠ Option.none ∧
    (outcomeOf (process_file cfg env) = some Outcome.skipped ↔
      (get_mp3_bitrate env.bitrateInfo = some cfg.desired_bitrate ∨
       ∃ b, get_mp3_bitrate env.bitrateInfo = some b ∧ 0 < b ∧
         b < cfg.desired_bitrate)) := by
  obtain ⟨evs, hev⟩ := estimation_core_isOk env t hsave
  have heb : estimation_block env = Except.ok evs := by
    rw [estimation_block_value env t htags, hev]
  have hm3 : (".mp3" : String) ∈ SUPPORTED_EXTENSIONS := by decide
  by_cases hskip : mp3_skip (get_mp3_bitrate env.bitrateInfo) cfg.desired_bitrate = true
  · have ho : outcomeOf (process_file cfg env) = some Outcome.skipped := by
      simp [process_file, outcomeOf, hext, hm3, heb, hskip]
    rw [ho]
    exact ⟨by simp, iff_of_true rfl ((mp3_skip_iff _ _).mp hskip)⟩
  · have ho : outcomeOf (process_file cfg env) = some (convert_to_mp3 cfg env).1 := by
      simp [process_file, outcomeOf, hext, hm3, heb, hskip]
    rw [ho]
    refine ⟨by simp, ?_⟩
    constructor
    · intro hsk
      have h1 := Option.some.inj hsk
      rcases convert_to_mp3_cases cfg env with hc | ⟨hf, _⟩
      · rw [h1] at hc; cases hc
      · rw [h1] at hf; cases hf
    · intro hrhs
      exact absurd ((mp3_skip_iff _ _).mpr hrhs) hskip

/-- Claim C5 counterexample: an .mp3 whose bitrate reads as 0 kbps, which
is strictly lower than the 256 kbps target, is converted rather than
skipped, because Python treats the 0 bitrate as falsy. -/
theorem c5_counterexample :
    get_mp3_bitrate env5.bitrateInfo = some 0 ∧
    0 < cfg256.desired_bitrate ∧
    outcomeOf (process_file cfg256 env5) = some Outcome.converted := by
  refine ⟨rfl, by decide, rfl⟩

/-- Witness for the amended C5 statement at a concrete .mp3 file. -/
theorem c5_amended_witness :
    pyLower envMp3AtTarget.ext = ".mp3" ∧
    (outcomeOf (process_file cfg256 envMp3AtTarget) = some Outcome.skipped ↔
      (get_mp3_bitrate envMp3AtTarget.bitrateInfo = some cfg256.desired_bitrate ∨
       ∃ b, get_mp3_bitrate envMp3AtTarget.bitrateInfo = some b ∧ 0 < b ∧
         b < cfg256.desired_bitrate)) :=
  ⟨rfl, (c5_eligibility_amended cfg256 envMp3AtTarget { artist := "A", title := "B" }
          rfl rfl rfl).2⟩

/-- Claim C6 (amended): the tag-update path of process_file fills artist and
title from the filename only where the existing field is empty, but the
recovery branch inside convert_to_mp3 assigns both fields unconditionally,
overwriting whatever values the artifact tag set held (the saved tag set is
the filename split, independent of the source and artifact tags). -/
theorem c6_recovery_overwrite_amended (env : FileEnv) (t s t2 : TagSet) (a ti : String)
    (hsp : splitArtistTitle env.base = some (a, ti))
    (htags : env.easyTags = MRead.value t) (hsave : env.easySaveOk = true)
    (hempty : t.artist = "" ∨ t.title = "")
    (hsrc : env.srcTags = MRead.value s) (hart : env.artTags = MRead.value t2)
    (hms : env.metaSaveOk = false) (hrs : env.recoverySaveOk = true) :
    estimation_block env = Except.ok
      [Event.tagSave (inputPath env)
         { artist := if t.artist = "" then a else t.artist,
           title := if t.title = "" then ti else t.title },
       Event.slack ("Estimated metadata for " ++ inputPath env ++
                    ": Artist - " ++ a ++ ", Title - " ++ ti)] ∧
    meta_section env = Except.ok
      [Event.tagSave env.tempPath { artist := a, title := ti },
       Event.slack ("Estimated metadata for " ++ inputPath env ++
                    ": Artist - " ++ a ++ ", Title - " ++ ti)] := by
  constructor
  · rw [estimation_block_value env t htags]
    have hcond : (t.artist = "" || t.title = "") = true := by
      rcases hempty with h | h <;> simp [h]
    simp [estimation_core, hcond, hsp, hsave]
  · simp [meta_section, hsrc, hart, hms, estimateRecovery, hsp, hrs]

/-- Claim C6 counterexample: the artifact tag set held the non-empty artist
Keep (and title Old) when the recovery branch ran, yet the recovery saved
artist New and title Song taken from the filename: the existing non-empty
values were overwritten. -/
theorem c6_counterexample :
    env6.artTags = MRead.value { artist := "Keep", title := "Old" } ∧
    mergeTags { artist := "", title := "" } { artist := "Keep", title := "Old" } =
      { artist := "Keep", title := "Old" } ∧
    meta_section env6 = Except.ok
      [Event.tagSave env6.tempPath { artist := "New", title := "Song" },
       Event.slack "Estimated metadata for /music/New - Song.wav: Artist - New, Title - Song"] ∧
    ("Keep" : String) ≠ "" ∧ ("New" : String) ≠ "Keep" := by
  refine ⟨rfl, rfl, rfl, by decide, by decide⟩

/-- Witness for the amended C6 statement at a concrete environment. -/
theorem c6_amended_witness :
    splitArtistTitle env6w.base = some ("New", "Song") ∧
    meta_section env6w = Except.ok
      [Event.tagSave env6w.tempPath { artist := "New", title := "Song" },
       Event.slack ("Estimated metadata for " ++ inputPath env6w ++
                    ": Artist - " ++ "New" ++ ", Title - " ++ "Song")] :=
  ⟨rfl, (c6_recovery_overwrite_amended env6w { artist := "", title := "T" }
          { artist := "A", title := "B" } { artist := "", title := "" } "New" "Song"
          rfl rfl rfl (Or.inl rfl) rfl rfl rfl rfl).2⟩

/-- Claim C8: in every successful conversion the commit events are, in
order, move of the artifact to the destination, chmod, chown, and only then
(and only when the destination differs from the source path) removal of the
source file; after every prefix of the whole event trace at least one copy
of the audio content exists. -/
theorem c8_commit_ordering (cfg : Config) (env : FileEnv) (metaEvs : List Event)
    (h1 : env.audioLoadOk = true) (h2 : env.statOk = true) (h3 : env.tempOk = true)
    (h4 : env.exportOk = true) (h5 : env.permStatOk = true) (h6 : env.sizesOk = true)
    (hm : meta_section env = Except.ok metaEvs)
    (h7 : env.moveOk = true) (h8 : env.chmodOk = true) (h9 : env.chownOk = true)
    (h10 : env.removeOk = true)
    (hti : env.tempPath ≠ inputPath env) (htn : env.tempPath ≠ newPath env) :
    commitInvariants cfg env metaEvs := by
  have hc := convert_to_mp3_ok cfg env metaEvs h1 h2 h3 h4 h5 h6 hm h7 h8 h9 h10
  have hN := meta_section_neutral env metaEvs hm
  have htr : (convert_to_mp3 cfg env).2.2 =
      startEvs env ++ metaEvs ++
        ([Event.move env.tempPath (newPath env), Event.chmod (newPath env),
          Event.chown (newPath env)] ++
         (if inputPath env = newPath env then [] else [Event.remove (inputPath env)])) := by
    rw [hc]
  refine ⟨hc, hN, ?_, ?_⟩
  · rw [htr]
    by_cases hpn : inputPath env = newPath env
    · rw [if_pos hpn]
      refine iff_of_false ?_ (by simp [hpn])
      intro hmem
      rcases List.mem_append.mp hmem with hmem1 | hmem2
      · rcases List.mem_append.mp hmem1 with hmem1a | hmem1b
        · simp [startEvs] at hmem1a
        · have := hN _ hmem1b
          simp [audioNeutral] at this
      · simp at hmem2
    · rw [if_neg hpn]
      refine iff_of_true ?_ hpn
      simp
  · rw [htr, List.append_assoc]
    refine safeTrace_cons _ _ _ _ _ _ rfl ?_
    rw [audioStep_neutral _ _ _ _ (Event.tmpCreate env.tempPath) rfl]
    refine safeTrace_cons _ _ _ _ _ _ rfl ?_
    simp only [List.append_eq, List.nil_append]
    refine safeTrace_append_neutral _ _ _ _ _ _ hN ?_
    refine safeTrace_commitTail _ _ _ hti htn _ ?_
    simp [audioStep, initialAudio]

/-- Witness for C8 at a concrete successful conversion. -/
theorem c8_commit_ordering_witness :
    meta_section envGood =
      Except.ok [Event.tagSave envGood.tempPath { artist := "A", title := "B" }] ∧
    envGood.tempPath ≠ inputPath envGood ∧
    envGood.tempPath ≠ newPath envGood ∧
    commitInvariants cfg256 envGood
      [Event.tagSave envGood.tempPath { artist := "A", title := "B" }] :=
  ⟨rfl, by decide, by decide,
   c8_commit_ordering cfg256 envGood _ rfl rfl rfl rfl rfl rfl rfl rfl rfl rfl rfl
     (by decide) (by decide)⟩
